import Mathlib

/-!
Shallow embedding of the FastAPI demo application (src/main.py and
src/main_base.py).  Handlers are modelled as pure functions; the two
in-memory dictionaries (`items`, `tasks`) are threaded explicitly as
association lists with Python-dict update semantics; Python `float`
values are modelled as exact rationals (only ordering and equality of
literals matter to the claims); `datetime`/`timedelta` values are
modelled as integers (only the presence of `None` and the shape of the
arithmetic matter); a Python `dict`/JSON body with possibly-absent keys
is modelled as a record of `Option` fields.
-/

namespace FastApiDemo

/-- Python-dict assignment `d[k] = v` on an insertion-ordered
association list: replaces the binding in place if the key is present,
otherwise appends it at the end. -/
def dictSet {α : Type} : List (String × α) → String → α → List (String × α)
  | [], k, v => [(k, v)]
  | (k', v') :: t, k, v =>
    if k' = k then (k, v) :: t else (k', v') :: dictSet t k v

theorem lookup_dictSet_self {α : Type} (l : List (String × α)) (k : String) (v : α) :
    List.lookup k (dictSet l k v) = some v := by
  induction l with
  | nil => simp [dictSet, List.lookup]
  | cons hd t ih =>
    obtain ⟨k', v'⟩ := hd
    by_cases h : k' = k
    · simp [dictSet, h, List.lookup]
    · simp only [dictSet, if_neg h, List.lookup]
      have : (k == k') = false := by
        simp [beq_eq_false_iff_ne]
        exact fun hk => h hk.symm
      simp [this, ih]

/-! ## `/models/{model_name}`: enumeration path parameter (C6) -/

/-- `class ModelName(str, Enum)` with members alexnet, resnet, lenet. -/
inductive ModelName
  | alexnet
  | resnet
  | lenet
deriving DecidableEq

/-- The `.value` string of each enum member. -/
def ModelName.value : ModelName → String
  | .alexnet => "alexnet"
  | .resnet => "resnet"
  | .lenet => "lenet"

/-- FastAPI validation of the `model_name` path segment against the
closed enum: any string other than the three member values is rejected
(modelled as `none`). -/
def parseModelName (s : String) : Option ModelName :=
  if s = "alexnet" then some .alexnet
  else if s = "resnet" then some .resnet
  else if s = "lenet" then some .lenet
  else none

structure ModelResponse where
  model_name : String
  message : String
deriving DecidableEq

/-- Handler for `GET /models/{model_name}` (identical in both source
files): `if model_name == ModelName.alexnet`, `elif model_name.value ==
"lenet"`, final fall-through return. -/
def get_model (model_name : ModelName) : ModelResponse :=
  if model_name = ModelName.alexnet then
    ⟨model_name.value, "Deep Learning FTW!"⟩
  else if model_name.value = "lenet" then
    ⟨model_name.value, "LeCNN all the images"⟩
  else
    ⟨model_name.value, "Have some residuals"⟩

/-! ## `GET /items/{item_id}` and `GET /items/` (C7, C10) -/

/-- Python truthiness of an optional string: `None` and `""` are falsy. -/
def strTruthy : Option String → Bool
  | none => false
  | some s => !s.isEmpty

/-- Response of `read_item`: `q = none` means the `"q"` key is absent
from the returned dict. -/
structure ReadItemResult where
  item_id : Int
  q : Option String
deriving DecidableEq

/-- Handler for `GET /items/{item_id}`: builds `{"item_id": item_id}`
and adds the `"q"` key only when `if q:` succeeds. -/
def read_item (item_id : Int) (q : Option String) : ReadItemResult :=
  let results : ReadItemResult := ⟨item_id, none⟩
  if strTruthy q then { results with q := q } else results

/-- Response of `read_items` (`GET /items/`): the fixed two-element
items list plus the optional `"q"` key. -/
structure ReadItemsResult where
  items : List (List (String × String))
  q : Option String
deriving DecidableEq

/-- Handler for `GET /items/`: fixed results dict, `"q"` added only when
`if q:` succeeds.  (The route also declares `min_length=3`/`max_length=50`
on the query parameter; that schema check is `itemsQueryOk` below and
runs before this handler.) -/
def read_items (q : Option String) : ReadItemsResult :=
  let results : ReadItemsResult :=
    ⟨[[("item_id", "Foo")], [("item_id", "Bar")]], none⟩
  if strTruthy q then { results with q := q } else results

/-- FastAPI validation of the `item-query` parameter of `GET /items/`:
the parameter is declared `Query(None, ..., min_length=3,
max_length=50, ...)`, so an absent parameter passes but a supplied
value must have length between 3 and 50. -/
def itemsQueryOk : Option String → Bool
  | none => true
  | some s => decide (3 ≤ s.length) && decide (s.length ≤ 50)

/-- The `GET /items/` route as observed by a client: the schema layer
rejects a supplied query value violating the declared length bounds
with a 422 validation error (the handler never runs), otherwise the
handler's result is returned with status 200. -/
def read_items_route (q : Option String) : Nat × Option ReadItemsResult :=
  if itemsQueryOk q then (200, some (read_items q)) else (422, none)

/-! ## `GET /unicorns/{name}` and the UnicornException handler (C3) -/

structure UnicornException where
  name : String
deriving DecidableEq

/-- `unicorn_exception_handler`: fixed status 418 and the formatted
message built from the exception's `name`. -/
def unicorn_exception_handler (exc : UnicornException) :
    Nat × List (String × String) :=
  (418, [("message",
    "Oops! " ++ exc.name ++ " did something. There goes a rainbow...")])

/-- Handler for `GET /unicorns/{name}`: raises `UnicornException` for
`"yolo"`, otherwise returns `{"unicorn_name": name}`. -/
def read_unicorn (name : String) :
    Except UnicornException (List (String × String)) :=
  if name = "yolo" then .error ⟨name⟩ else .ok [("unicorn_name", name)]

/-- The route as observed by a client: the registered exception handler
turns a raised `UnicornException` into its 418 response, a normal return
into a 200 response. -/
def unicornsRoute (name : String) : Nat × List (String × String) :=
  match read_unicorn name with
  | .error exc => unicorn_exception_handler exc
  | .ok body => (200, body)

/-! ## The `Item` model and `POST /items/` (C5) -/

structure Image where
  url : String
  name : String
deriving DecidableEq

/-- `class Item(BaseModel)`: `price` carries `gt=0`, `description`
carries `max_length=300`; Python floats are modelled as rationals. -/
structure Item where
  name : String
  description : Option String
  price : Rat
  tax : Option Rat
  tags : List String
  images : Option (List Image)
deriving DecidableEq

/-- The two declared field constraints of `Item`, as checked by the
framework's schema layer: `price` must satisfy `gt=0` and a present
`description` must satisfy `max_length=300`. -/
def itemConstraintsOk (i : Item) : Bool :=
  decide (0 < i.price) &&
    (match i.description with
     | none => true
     | some d => decide (d.length ≤ 300))

/-- An endpoint taking an `Item` body (e.g. `create_item`, `POST
/items/`): the framework rejects the request with a 422 validation
error when a field constraint fails, otherwise the handler runs and the
route answers 201 echoing the item. -/
def create_item (i : Item) : Nat × Option Item :=
  if itemConstraintsOk i then (201, some i) else (422, none)

/-! ## Field layout of `Item` and `Item2` (C4) -/

structure FieldSpec where
  fname : String
  hasDefault : Bool
deriving DecidableEq

/-- The fields of `Item` in declaration order, with whether each has a
default (`name` and `price` are required, the rest default). -/
def itemFieldSpecs : List FieldSpec :=
  [⟨"name", false⟩, ⟨"description", true⟩, ⟨"price", false⟩,
   ⟨"tax", true⟩, ⟨"tags", true⟩, ⟨"images", true⟩]

/-- The fields of `Item2` in declaration order: all five have defaults
(`None`, `None`, `None`, `10.5`, `[]`). -/
def item2FieldSpecs : List FieldSpec :=
  [⟨"name", true⟩, ⟨"description", true⟩, ⟨"price", true⟩,
   ⟨"tax", true⟩, ⟨"tags", true⟩]

/-! ## `Item2`, the `items` store, PUT and PATCH `/items2/{item_id}`
(C1, C9) -/

/-- `class Item2(BaseModel)`: every field optional with a default. -/
structure Item2 where
  name : Option String
  description : Option String
  price : Option Rat
  tax : Rat
  tags : List String
deriving DecidableEq

/-- A JSON object / stored Python dict over the `Item2` fields: each
field is either absent (`none`) or present with a value.  Request
bodies and the values of the `items` dictionary both have this shape. -/
structure Item2Dict where
  name : Option (Option String)
  description : Option (Option String)
  price : Option (Option Rat)
  tax : Option Rat
  tags : Option (List String)
deriving DecidableEq

/-- Pydantic parsing `Item2(**d)`: absent fields take the declared
defaults. -/
def parseItem2 (d : Item2Dict) : Item2 :=
  ⟨d.name.getD none, d.description.getD none, d.price.getD none,
   d.tax.getD (10.5 : Rat), d.tags.getD []⟩

/-- `jsonable_encoder` on an `Item2` model: a dict with every field
present. -/
def encodeItem2 (m : Item2) : Item2Dict :=
  ⟨some m.name, some m.description, some m.price, some m.tax, some m.tags⟩

/-- `stored_item_model.copy(update=item.dict(exclude_unset=True))`:
fields set in the request body override the stored model's fields,
unset fields are kept. -/
def copyUpdate (m : Item2) (d : Item2Dict) : Item2 :=
  ⟨d.name.getD m.name, d.description.getD m.description,
   d.price.getD m.price, d.tax.getD m.tax, d.tags.getD m.tags⟩

/-- The initial contents of the `items` dictionary. -/
def itemsInit : List (String × Item2Dict) :=
  [("foo", ⟨some (some "Foo"), none, some (some (50.2 : Rat)), none, none⟩),
   ("bar", ⟨some (some "Bar"), some (some "The bartenders"),
            some (some (62 : Rat)), some (20.2 : Rat), none⟩),
   ("baz", ⟨some (some "Baz"), some none, some (some (50.2 : Rat)),
            some (10.5 : Rat), some []⟩)]

/-- Handler for `PUT /items2/{item_id}`: parses the body into an
`Item2` model, encodes it back to a (full) dict and stores it under
`item_id`, replacing whatever was there.  Returns the new store and the
encoded item. -/
def update_item_put2 (store : List (String × Item2Dict)) (item_id : String)
    (item : Item2Dict) : List (String × Item2Dict) × Item2Dict :=
  let update_item_encoded := encodeItem2 (parseItem2 item)
  (dictSet store item_id update_item_encoded, update_item_encoded)

/-- Handler for `PATCH /items2/{item_id}`: `items[item_id]` raises
`KeyError` when the key is absent (modelled as `.error ()`, with the
store returned unchanged since the exception precedes any mutation);
otherwise the stored dict is parsed, merged with the set fields of the
body via `copy(update=...)`, re-encoded and stored. -/
def update_item_patch2 (store : List (String × Item2Dict)) (item_id : String)
    (item : Item2Dict) :
    List (String × Item2Dict) × Except Unit Item2Dict :=
  match List.lookup item_id store with
  | none => (store, .error ())
  | some stored_item_data =>
    let stored_item_model := parseItem2 stored_item_data
    let updated_item := copyUpdate stored_item_model item
    (dictSet store item_id (encodeItem2 updated_item),
     .ok (encodeItem2 updated_item))

/-- The all-fields-absent request body `{}`. -/
def emptyItem2Dict : Item2Dict := ⟨none, none, none, none, none⟩

/-! ## `PUT /get-or-create-task/{task_id}` (C2) -/

/-- The initial contents of the `tasks` dictionary. -/
def tasksInit : List (String × String) := [("foo", "Listen to the Bar Fighters")]

/-- Handler for `PUT /get-or-create-task/{task_id}` (declared default
status 200): when `task_id` is absent the entry is inserted and the
response status set to 201; the stored value is returned either way.
Result: (new tasks dict, status code, body). -/
def get_or_create_task (tasks : List (String × String)) (task_id : String) :
    List (String × String) × Nat × String :=
  match List.lookup task_id tasks with
  | some v => (tasks, 200, v)
  | none =>
    (dictSet tasks task_id "This didn't exist before", 201,
     "This didn't exist before")

/-! ## `PUT /items1/{item_id}`: datetime arithmetic (C8) -/

/-- Python `a + b` on `Optional[datetime] + Optional[timedelta]`: a
`TypeError` (modelled as `.error ()`) unless both operands are
present. -/
def pyOptAdd (a b : Option Int) : Except Unit Int :=
  match a, b with
  | some x, some y => .ok (x + y)
  | _, _ => .error ()

/-- Python `a - b` on `Optional[datetime] - datetime`: a `TypeError`
unless the left operand is present. -/
def pyOptSubL (a : Option Int) (b : Int) : Except Unit Int :=
  match a with
  | some x => .ok (x - b)
  | none => .error ()

structure Items1Result where
  item_id : String
  start_datetime : Option Int
  end_datetime : Option Int
  repeat_at : Option Int
  process_after : Option Int
  start_process : Int
  duration : Int
deriving DecidableEq

/-- Handler for `PUT /items1/{item_id}` (named `read_items` in the
source): unconditionally computes `start_process = start_datetime +
process_after` and `duration = end_datetime - start_process`, so it
raises when any of the three operands is `None`. -/
def read_items_put1 (item_id : String)
    (start_datetime end_datetime repeat_at process_after : Option Int) :
    Except Unit Items1Result :=
  match pyOptAdd start_datetime process_after with
  | .error e => .error e
  | .ok start_process =>
    match pyOptSubL end_datetime start_process with
    | .error e => .error e
    | .ok duration =>
      .ok ⟨item_id, start_datetime, end_datetime, repeat_at,
           process_after, start_process, duration⟩

/-! ## Theorems -/

/-- C6: for every model_name in the closed set {alexnet, resnet, lenet},
`GET /models/{model_name}` returns a distinct message per matched value
(lenet: "LeCNN all the images", containing "LeCNN"; alexnet: "Deep
Learning FTW!"; resnet: "Have some residuals"), and any string outside
the closed set is rejected by validation. -/
theorem C6_models_dispatch (s : String) :
    get_model ModelName.alexnet = ⟨"alexnet", "Deep Learning FTW!"⟩ ∧
    get_model ModelName.resnet = ⟨"resnet", "Have some residuals"⟩ ∧
    get_model ModelName.lenet = ⟨"lenet", "LeCNN all the images"⟩ ∧
    (∃ p t, (get_model ModelName.lenet).message = p ++ "LeCNN" ++ t) ∧
    (parseModelName s = none ↔ s ≠ "alexnet" ∧ s ≠ "resnet" ∧ s ≠ "lenet") := by
  refine ⟨rfl, rfl, rfl, ⟨"", " all the images", rfl⟩, ?_⟩
  unfold parseModelName
  split_ifs with h1 h2 h3 <;> simp_all

/-- C10 counterexample: the claim says `GET /items/` likewise treats a
supplied empty string identically to an absent parameter, but the route
declares `min_length=3` on `item-query`, so the schema layer rejects
the supplied `""` with 422 while an absent parameter yields 200 with
the items payload: the two are not identical at the public interface. -/
theorem C10_counterexample :
    read_items_route (some "") ≠ read_items_route none ∧
    (read_items_route (some "")).1 = 422 ∧
    read_items_route none =
      (200, some ⟨[[("item_id", "Foo")], [("item_id", "Bar")]], none⟩) := by
  decide

/-- C10 (amended): `GET /items/{item_id}` (whose query declares no
length constraints) treats a supplied empty string identically to an
absent parameter, omitting the `"q"` key, because the handler tests the
truthiness of q; but for `GET /items/` a supplied empty string violates
the declared `min_length=3` and is rejected 422 by the schema layer
(the handler, which also tests truthiness, never runs), while an absent
parameter yields 200 with the `"q"` key omitted. -/
theorem C10_empty_query_like_absent (item_id : Int) :
    read_item item_id (some "") = read_item item_id none ∧
    read_items (some "") = read_items none ∧
    read_items_route (some "") = (422, none) ∧
    read_items_route none = (200, some (read_items none)) ∧
    (read_items none).q = none := by
  exact ⟨rfl, rfl, rfl, rfl, rfl⟩

/-- C7 counterexample: the claim says every supplied query value is
echoed under the `"q"` key, but at `item_id = 5`, `q = ""` (supplied as
the empty string) the handler omits the key. -/
theorem C7_counterexample :
    (read_item 5 (some "")).q ≠ some "" ∧ (read_item 5 (some "")).q = none := by
  decide

/-- C7 (amended): for every integer item_id and every nonempty query
value q supplied under the alias, `GET /items/{item_id}` echoes item_id
and binds the `"q"` key to q; with no query it echoes item_id alone; in
particular `GET /items/5?item-query=foo` returns
`{"item_id":5,"q":"foo"}`. -/
theorem C7_read_item_echo (item_id : Int) (q : String) (h : q ≠ "") :
    read_item item_id (some q) = ⟨item_id, some q⟩ ∧
    read_item item_id none = ⟨item_id, none⟩ ∧
    read_item 5 (some "foo") = ⟨5, some "foo"⟩ := by
  have he : q.isEmpty = false := by
    cases he : q.isEmpty
    · rfl
    · exact absurd ((String.isEmpty_iff q).1 he) h
  have hq : strTruthy (some q) = true := by simp [strTruthy, he]
  exact ⟨by simp [read_item, hq], rfl, rfl⟩

/-- Witness for C7_read_item_echo at item_id = 5, q = "foo". -/
theorem C7_read_item_echo_witness :
    ("foo" ≠ "") ∧
    (read_item 5 (some "foo") = ⟨5, some "foo"⟩ ∧
     read_item 5 none = ⟨5, none⟩ ∧
     read_item 5 (some "foo") = ⟨5, some "foo"⟩) :=
  ⟨by decide, C7_read_item_echo 5 "foo" (by decide)⟩

/-- C3: `GET /unicorns/{name}` raises UnicornException exactly when
name = "yolo"; the registered handler maps it to status 418 with a
message containing the offending name; every other name gets the normal
`{"unicorn_name": name}` response. -/
theorem C3_unicorns (name : String) :
    ((∃ e, read_unicorn name = Except.error e) ↔ name = "yolo") ∧
    (name = "yolo" →
      (unicornsRoute name).1 = 418 ∧
      ∃ p t, (unicornsRoute name).2 = [("message", p ++ name ++ t)]) ∧
    (name ≠ "yolo" → unicornsRoute name = (200, [("unicorn_name", name)])) := by
  by_cases h : name = "yolo"
  · subst h
    refine ⟨⟨fun _ => rfl, fun _ => ⟨⟨"yolo"⟩, rfl⟩⟩,
            fun _ => ⟨rfl, "Oops! ", " did something. There goes a rainbow...", rfl⟩,
            fun hc => absurd rfl hc⟩
  · refine ⟨?_, fun hy => absurd hy h, fun _ => ?_⟩
    · simp [read_unicorn, h]
    · simp [unicornsRoute, read_unicorn, h]

/-- Witness for C3_unicorns: both branches at concrete names. -/
theorem C3_unicorns_witness :
    ((unicornsRoute "yolo").1 = 418 ∧
      ∃ p t, (unicornsRoute "yolo").2 = [("message", p ++ "yolo" ++ t)]) ∧
    unicornsRoute "gandalf" = (200, [("unicorn_name", "gandalf")]) :=
  ⟨(C3_unicorns "yolo").2.1 rfl, (C3_unicorns "gandalf").2.2 (by decide)⟩

/-- C5: a request body for an `Item`-taking endpoint is rejected with a
4xx validation error (422) exactly when price is not greater than zero
or the description exceeds 300 characters, and accepted (201) exactly
otherwise. -/
theorem C5_item_validation (i : Item) :
    ((create_item i).1 = 201 ↔
      (0 < i.price ∧ ∀ d ∈ i.description, d.length ≤ 300)) ∧
    ((create_item i).1 = 422 ↔
      ¬(0 < i.price ∧ ∀ d ∈ i.description, d.length ≤ 300)) := by
  unfold create_item itemConstraintsOk
  cases hd : i.description with
  | none => by_cases hp : 0 < i.price <;> simp [hp]
  | some d =>
    by_cases hp : 0 < i.price <;> by_cases hl : d.length ≤ 300 <;>
      simp [hp, hl]

/-- C4 counterexample: `Item` has an `images` field that `Item2` lacks,
so the two models do not have the same set of fields. -/
theorem C4_counterexample :
    "images" ∈ itemFieldSpecs.map FieldSpec.fname ∧
    "images" ∉ item2FieldSpecs.map FieldSpec.fname := by
  decide

/-- C4 (amended): `Item2` has exactly the fields of `Item` except
`images` (which it lacks), in the same order, and all of its fields are
optional with defaults. -/
theorem C4_item2_fields :
    item2FieldSpecs.map FieldSpec.fname =
      (itemFieldSpecs.map FieldSpec.fname).filter (fun s => s != "images") ∧
    item2FieldSpecs.all FieldSpec.hasDefault = true := by
  decide

/-- C8: `PUT /items1/{item_id}` succeeds exactly when start_datetime,
end_datetime and process_after are all present; omitting any of the
three makes its unconditional arithmetic fail (the error branch is
reachable), regardless of repeat_at. -/
theorem C8_items1_precondition (item_id : String)
    (start_datetime end_datetime repeat_at process_after : Option Int) :
    ((∃ r, read_items_put1 item_id start_datetime end_datetime repeat_at
        process_after = .ok r) ↔
      (start_datetime ≠ none ∧ end_datetime ≠ none ∧ process_after ≠ none)) ∧
    ((read_items_put1 item_id start_datetime end_datetime repeat_at
        process_after = .error ()) ↔
      (start_datetime = none ∨ end_datetime = none ∨ process_after = none)) := by
  cases start_datetime <;> cases end_datetime <;> cases process_after <;>
    simp [read_items_put1, pyOptAdd, pyOptSubL]

/-- C2: `PUT /get-or-create-task/{task_id}` answers 201 and creates the
entry when task_id is not yet a key of the tasks dictionary, answers
200 with the stored value (leaving the dictionary unchanged) when it
is, and the entry created by a first call persists, so a second
identical call answers 200. -/
theorem C2_get_or_create_task (tasks : List (String × String)) (task_id : String) :
    (List.lookup task_id tasks = none →
      (get_or_create_task tasks task_id).2.1 = 201 ∧
      List.lookup task_id (get_or_create_task tasks task_id).1 =
        some "This didn't exist before") ∧
    (∀ v, List.lookup task_id tasks = some v →
      get_or_create_task tasks task_id = (tasks, 200, v)) ∧
    (get_or_create_task (get_or_create_task tasks task_id).1 task_id).2.1 = 200 ∧
    (get_or_create_task (get_or_create_task tasks task_id).1 task_id).1 =
      (get_or_create_task tasks task_id).1 := by
  cases h : List.lookup task_id tasks with
  | none =>
    refine ⟨fun _ => ?_, fun v hv => by simp [h] at hv, ?_, ?_⟩ <;>
      simp [get_or_create_task, h, lookup_dictSet_self]
  | some v =>
    have hgo : get_or_create_task tasks task_id = (tasks, 200, v) := by
      simp [get_or_create_task, h]
    refine ⟨fun hn => by simp [h] at hn, fun w hw => ?_, ?_, ?_⟩
    · obtain rfl := Option.some_inj.mp hw
      exact hgo
    · rw [hgo]
      simp [get_or_create_task, h]
    · rw [hgo]
      simp [get_or_create_task, h]

/-- Witness for C2_get_or_create_task at the initial tasks dictionary
and the fresh key "new-id". -/
theorem C2_get_or_create_task_witness :
    (List.lookup "new-id" tasksInit = none) ∧
    ((get_or_create_task tasksInit "new-id").2.1 = 201 ∧
      List.lookup "new-id" (get_or_create_task tasksInit "new-id").1 =
        some "This didn't exist before") ∧
    (get_or_create_task (get_or_create_task tasksInit "new-id").1 "new-id").2.1 = 200 :=
  ⟨by decide, (C2_get_or_create_task tasksInit "new-id").1 (by decide),
   (C2_get_or_create_task tasksInit "new-id").2.2.1⟩

/-- C9: a PATCH to `/items2/{item_id}` for a key not in the items
dictionary fails with an uncaught KeyError and leaves the dictionary
unchanged: the partial update has the unstated precondition that the
key already exists. -/
theorem C9_patch_missing_key (store : List (String × Item2Dict))
    (item_id : String) (body : Item2Dict)
    (h : List.lookup item_id store = none) :
    update_item_patch2 store item_id body = (store, .error ()) := by
  simp [update_item_patch2, h]

/-- Witness for C9_patch_missing_key: PATCH on the absent key "qux" of
the initial items dictionary. -/
theorem C9_patch_missing_key_witness :
    (List.lookup "qux" itemsInit = none) ∧
    update_item_patch2 itemsInit "qux" emptyItem2Dict = (itemsInit, .error ()) :=
  ⟨by decide, C9_patch_missing_key itemsInit "qux" emptyItem2Dict (by decide)⟩

/-- The partial PUT body `{"name": "Barz", "price": 3}` used against
the stored record "bar". -/
def bodyC1 : Item2Dict :=
  ⟨some (some "Barz"), none, some (some (3 : Rat)), none, none⟩

/-- The record stored under "bar" in the initial items dictionary. -/
def barStored : Item2Dict :=
  ⟨some (some "Bar"), some (some "The bartenders"),
   some (some (62 : Rat)), some (20.2 : Rat), none⟩

/-- C1 counterexample: a PUT to `/items2/bar` with a partial body that
omits description does NOT retain the previously stored description
"The bartenders": PUT fully replaces the stored record with the
re-encoded model (description becomes null). -/
theorem C1_counterexample :
    bodyC1.description = none ∧
    (List.lookup "bar" itemsInit).map Item2Dict.description =
      some (some (some "The bartenders")) ∧
    (List.lookup "bar" (update_item_put2 itemsInit "bar" bodyC1).1).map
      Item2Dict.description ≠ some (some (some "The bartenders")) ∧
    (List.lookup "bar" (update_item_put2 itemsInit "bar" bodyC1).1).map
      Item2Dict.description = some (some none) := by
  decide

/-- C1 (amended): the merge law holds for PATCH `/items2/{item_id}`,
not PUT: for every stored item_id and every request body, PATCH leaves
the stored record with every field not present in the body retaining
its previous (effective) value, while PUT performs a full replacement. -/
theorem C1_patch_partial_merge (store : List (String × Item2Dict))
    (item_id : String) (body stored : Item2Dict)
    (h : List.lookup item_id store = some stored) :
    ∃ ns, List.lookup item_id (update_item_patch2 store item_id body).1 = some ns ∧
      (body.name = none → (parseItem2 ns).name = (parseItem2 stored).name) ∧
      (body.description = none →
        (parseItem2 ns).description = (parseItem2 stored).description) ∧
      (body.price = none → (parseItem2 ns).price = (parseItem2 stored).price) ∧
      (body.tax = none → (parseItem2 ns).tax = (parseItem2 stored).tax) ∧
      (body.tags = none → (parseItem2 ns).tags = (parseItem2 stored).tags) := by
  refine ⟨encodeItem2 (copyUpdate (parseItem2 stored) body), ?_, ?_, ?_, ?_, ?_, ?_⟩
  · simp [update_item_patch2, h, lookup_dictSet_self]
  all_goals intro hb
  all_goals simp [parseItem2, encodeItem2, copyUpdate, hb]

/-- Witness for C1_patch_partial_merge: PATCH of the partial body onto
the stored "bar" record. -/
theorem C1_patch_partial_merge_witness :
    (List.lookup "bar" itemsInit = some barStored) ∧
    (∃ ns, List.lookup "bar" (update_item_patch2 itemsInit "bar" bodyC1).1 = some ns ∧
      (bodyC1.name = none → (parseItem2 ns).name = (parseItem2 barStored).name) ∧
      (bodyC1.description = none →
        (parseItem2 ns).description = (parseItem2 barStored).description) ∧
      (bodyC1.price = none → (parseItem2 ns).price = (parseItem2 barStored).price) ∧
      (bodyC1.tax = none → (parseItem2 ns).tax = (parseItem2 barStored).tax) ∧
      (bodyC1.tags = none → (parseItem2 ns).tags = (parseItem2 barStored).tags)) :=
  ⟨by rfl, C1_patch_partial_merge itemsInit "bar" bodyC1 barStored (by rfl)⟩

end FastApiDemo
